import Mathlib

/-!
Shallow embedding of `packages/api/src/services/subscriptions.ts`.

External collaborators (the mail transport, the HTTP client, the relational
store failure modes, logging) are modelled as oracle parameters; the store
itself is modelled as an explicit in-memory list of rows.  Machine effects
(store writes, executor invocations) are recorded in an explicit effect
trace so that claims about which operations a call performs are statable.
-/

namespace Omnivore

abbrev Err := String

deriving instance DecidableEq for Except

/-! ## URL model

`parseUnsubscribeMailTo` in the source calls `new URL("mailto://" + s)` and
uses `url.search` and `url.searchParams.get("subject")`.  The definitions in
this namespace model that WHATWG URL behaviour on its faithful scope:
inputs all of whose characters are alphanumeric or among `. - _ ~ @ ? = &`
(the scope the parser theorems impose through `urlPlainChar`).  On such
inputs `new URL` does not throw (no forbidden host code point, no port
delimiter `:`, no fragment `#`), serialization leaves the query unchanged
(none of these characters is percent-encoded in a query, so `url.search`
is the raw substring of the input starting at the first `?`, empty when
there is no `?` or nothing follows the first `?`), and `searchParams.get`
performs no percent- or plus-decoding (no `%`, `+` or space in scope), so
it returns raw values: it splits the query on `&`, drops empty segments,
and the key and value of a segment are the parts before/after its first
`=`.
-/
namespace URLModel

/-- The characters of `url.search`: from the first `?` to the end, or `[]`
when there is no `?` or the query after the first `?` is empty (the WHATWG
search getter returns the empty string for an empty query). -/
def searchChars (cs : List Char) : List Char :=
  match cs.dropWhile (fun c => c ≠ '?') with
  | [] => []
  | [_] => []
  | l => l

/-- `s.replace(url.search, "")` for the inputs in scope: when `search` is
nonempty it begins with the first `?` of the string, so its first (and only)
occurrence is the suffix starting there, and replacing it keeps exactly the
characters before the first `?`; when `search` is empty, `replace` is the
identity. -/
def strippedChars (cs : List Char) : List Char :=
  if searchChars cs = [] then cs else cs.takeWhile (fun c => c ≠ '?')

/-- Split on `&` (the segment structure used by `URLSearchParams`). -/
def splitOnAmp : List Char → List (List Char)
  | [] => [[]]
  | c :: cs =>
    match splitOnAmp cs with
    | [] => [[]]
    | h :: t => if c = '&' then [] :: h :: t else (c :: h) :: t

/-- Key of a query segment: the part before its first `=`. -/
def keyOf (seg : List Char) : List Char :=
  seg.takeWhile (fun c => c ≠ '=')

/-- Value of a query segment: the part after its first `=` (empty when the
segment has no `=`, as `URLSearchParams` reports `""` for a bare key). -/
def valOf (seg : List Char) : List Char :=
  (seg.dropWhile (fun c => c ≠ '=')).drop 1

/-- `searchParams.get(key)` on a query (the part after `?`): the value of
the first nonempty segment whose key matches, or `none`. -/
def getParam (key : List Char) (query : List Char) : Option (List Char) :=
  match ((splitOnAmp query).filter (fun seg => ¬ seg.isEmpty)).find?
      (fun seg => keyOf seg = key) with
  | some seg => some (valOf seg)
  | none => none

end URLModel

/-- Result of `parseUnsubscribeMailTo`. -/
structure ParsedMailTo where
  toAddr : String
  subject : String
deriving DecidableEq, Repr

/-- The `Invalid unsubscribe email address` error thrown by the parser,
carrying the offending input. -/
inductive ParseError where
  | invalidAddress (input : String)
deriving DecidableEq, Repr

/-- `searchParams.get("subject") || "Unsubscribe"` over a given query (the
JS `||` falls through to the default when the parameter value is the empty
string). -/
def subjectOfQuery (query : List Char) : String :=
  match URLModel.getParam "subject".data query with
  | some v => if v = [] then "Unsubscribe" else String.mk v
  | none => "Unsubscribe"

/-- The subject computed by `parseUnsubscribeMailTo`: `subjectOfQuery` on
the query part of `url.search`. -/
def subjectOf (unsubscribeMailTo : String) : String :=
  subjectOfQuery ((URLModel.searchChars unsubscribeMailTo.data).drop 1)

/-- Embeds `parseUnsubscribeMailTo`: `to` is the input with `url.search`
removed; an address that is empty or lacks `@` throws; otherwise the target
and the subject (`subjectOf`) are returned. -/
def parseUnsubscribeMailTo (unsubscribeMailTo : String) : Except ParseError ParsedMailTo :=
  if String.mk (URLModel.strippedChars unsubscribeMailTo.data) = "" ∨
      '@' ∉ URLModel.strippedChars unsubscribeMailTo.data then
    Except.error (ParseError.invalidAddress unsubscribeMailTo)
  else
    Except.ok { toAddr := String.mk (URLModel.strippedChars unsubscribeMailTo.data),
                subject := subjectOf unsubscribeMailTo }

/-! ## Unsubscribe executors -/

/-- The fixed disclosure body `UNSUBSCRIBE_EMAIL_TEXT`. -/
def UNSUBSCRIBE_EMAIL_TEXT : String :=
  "This message was automatically generated by Omnivore."

/-- Argument object of the external `sendEmail` collaborator.  The source
field `from` is a Lean keyword and is embedded as `fromAddr`. -/
structure EmailPayload where
  toAddr : String
  subject : String
  text : String
  fromAddr : String
deriving DecidableEq, Repr

/-- External mail transport: returns the accepted/rejected boolean or
raises (modelled as `Except.error`). -/
abbrev EmailOracle := EmailPayload → Except Err Bool

/-- External HTTP client `axios.get url {timeout}`: completes (any
non-throwing response) or raises on timeout / network error / non-2xx. -/
abbrev HttpOracle := String → Nat → Except Err Unit

/-- Embeds `sendUnsubscribeEmail`: parse the mailto target, send the email,
return whether the send reported success; every internal error (parse throw
or transport throw) is caught and becomes `false`. -/
def sendUnsubscribeEmail (send : EmailOracle) (unsubscribeMailTo newsletterEmail : String) : Bool :=
  match parseUnsubscribeMailTo unsubscribeMailTo with
  | Except.error _ => false
  | Except.ok parsed =>
    match send { toAddr := parsed.toAddr, subject := parsed.subject,
                 text := UNSUBSCRIBE_EMAIL_TEXT, fromAddr := newsletterEmail } with
    | Except.error _ => false
    | Except.ok sent => if !sent then false else true

/-- The 5000 ms timeout passed to `axios.get` by `sendUnsubscribeHttpRequest`. -/
def httpTimeoutMs : Nat := 5000

/-- Embeds `sendUnsubscribeHttpRequest`: GET the url with the 5000 ms
timeout; any raised error is caught and becomes `false`. -/
def sendUnsubscribeHttpRequest (get : HttpOracle) (url : String) : Bool :=
  match get url httpTimeoutMs with
  | Except.ok _ => true
  | Except.error _ => false

/-! ## Data model and store -/

inductive SubscriptionType where
  | Newsletter
  | Rss
deriving DecidableEq, Repr

inductive SubscriptionStatus where
  | Active
  | Unsubscribed
deriving DecidableEq, Repr

/-- `NewsletterEmail` entity: a receiving mailbox address owned by a user. -/
structure NewsletterEmail where
  id : Nat
  address : String
  userId : Nat
deriving DecidableEq, Repr

/-- `Subscription` entity.  The `newsletterEmail` field is the (optionally
loaded) relation to the receiving address; `Rss` rows have none. -/
structure Subscription where
  id : Nat
  name : String
  userId : Nat
  type : SubscriptionType
  status : SubscriptionStatus
  unsubscribeMailTo : Option String := none
  unsubscribeHttpUrl : Option String := none
  icon : Option String := none
  lastFetchedAt : Option Nat := none
  newsletterEmail : Option NewsletterEmail := none
deriving DecidableEq, Repr

/-- The relational store contents: subscription rows, newsletter-email rows,
and the id sequences the store assigns to new rows. -/
structure DB where
  subs : List Subscription := []
  newsletterEmails : List NewsletterEmail := []
  nextId : Nat := 0
  nextNeId : Nat := 0
deriving DecidableEq, Repr

/-- Two rows collide on the store key (user, name, type). -/
def sameKey (a b : Subscription) : Bool :=
  a.name == b.name && a.userId == b.userId && a.type == b.type

/-- Modelled from the spec: the Subscription entity declaration is not under
`src/`; per the spec the store enforces a unique constraint on
(user, name, type), so saving a row whose key collides with an existing row
raises a conflict error instead of inserting a duplicate. -/
def insertSubscription (db : DB) (row : Subscription) : Except Err DB :=
  if db.subs.any (fun r => sameKey r row) then
    Except.error "duplicate key value violates unique constraint"
  else
    Except.ok { db with subs := db.subs ++ [row], nextId := db.nextId + 1 }

/-- `getRepository(Subscription).update(id, {status})`. -/
def updateSubscriptionStatus (db : DB) (id : Nat) (st : SubscriptionStatus) : DB :=
  { db with subs := db.subs.map (fun s => if s.id = id then { s with status := st } else s) }

/-- `getRepository(Subscription).delete(id)`. -/
def deleteSubscription (db : DB) (id : Nat) : DB :=
  { db with subs := db.subs.filter (fun s => s.id ≠ id) }

/-- The `subscriptionData` object built by `saveSubscription`. -/
structure SubscriptionData where
  unsubscribeHttpUrl : Option String
  unsubscribeMailTo : Option String
  icon : Option String
  lastFetchedAt : Nat
deriving DecidableEq, Repr

/-- Overwrite the mutable metadata fields of a row with `subscriptionData`. -/
def applyData (d : SubscriptionData) (s : Subscription) : Subscription :=
  { s with unsubscribeHttpUrl := d.unsubscribeHttpUrl,
           unsubscribeMailTo := d.unsubscribeMailTo,
           icon := d.icon,
           lastFetchedAt := some d.lastFetchedAt }

/-- `getRepository(Subscription).update(id, subscriptionData)`. -/
def updateSubscriptionData (db : DB) (id : Nat) (d : SubscriptionData) : DB :=
  { db with subs := db.subs.map (fun s => if s.id = id then applyData d s else s) }

/-- The `findOneBy` predicate of `getSubscriptionByNameAndUserId`:
name, user and `type = Newsletter`. -/
def matchesNameUser (name : String) (userId : Nat) (s : Subscription) : Bool :=
  s.name == name && s.userId == userId && s.type == SubscriptionType.Newsletter

/-- Embeds `getSubscriptionByNameAndUserId`. -/
def getSubscriptionByNameAndUserId (name : String) (userId : Nat) (db : DB) :
    Option Subscription :=
  db.subs.find? (matchesNameUser name userId)

/-- Number of rows matching (name, user, Newsletter). -/
def countMatching (name : String) (userId : Nat) (db : DB) : Nat :=
  db.subs.countP (matchesNameUser name userId)

/-- Input object of `saveSubscription` (the unused `from` field of the
source interface is omitted by the destructuring there and here). -/
structure SaveSubscriptionInput where
  userId : Nat
  name : String
  newsletterEmail : NewsletterEmail
  unsubscribeMailTo : Option String := none
  unsubscribeHttpUrl : Option String := none
  icon : Option String := none
deriving DecidableEq, Repr

/-- The row object literal `saveSubscription` passes to `save` when no
existing row matches (named so the theorems can refer to it).  Its
`status = Active` is the status column default of the entity, modelled from
the spec since the entity declaration is not under `src/`. -/
def saveRowOf (input : SaveSubscriptionInput) (now : Nat) (id : Nat) : Subscription :=
  { id := id,
    name := input.name,
    userId := input.userId,
    type := SubscriptionType.Newsletter,
    status := SubscriptionStatus.Active,
    unsubscribeMailTo := input.unsubscribeMailTo,
    unsubscribeHttpUrl := input.unsubscribeHttpUrl,
    icon := input.icon,
    lastFetchedAt := some now,
    newsletterEmail := some input.newsletterEmail }

/-- Embeds `saveSubscription` (`now` stands for `new Date()`).  The inserted
row carries `status = Active`: the status column default of the entity,
modelled from the spec since the entity declaration is not under `src/`. -/
def saveSubscription (input : SaveSubscriptionInput) (now : Nat) (db : DB) :
    Except Err (Nat × DB) :=
  let subscriptionData : SubscriptionData :=
    { unsubscribeHttpUrl := input.unsubscribeHttpUrl,
      unsubscribeMailTo := input.unsubscribeMailTo,
      icon := input.icon,
      lastFetchedAt := now }
  match getSubscriptionByNameAndUserId input.name input.userId db with
  | some existing =>
    Except.ok (existing.id, updateSubscriptionData db existing.id subscriptionData)
  | none =>
    match insertSubscription db (saveRowOf input now db.nextId) with
    | Except.error e => Except.error e
    | Except.ok db2 => Except.ok ((saveRowOf input now db.nextId).id, db2)

/-! ## Unsubscribe orchestrator -/

/-- Observable operations performed by the orchestrators: executor
invocations and store writes. -/
inductive Effect where
  | emailExec (mailTo fromAddr : String)
  | httpExec (url : String)
  | updateStatus (id : Nat) (st : SubscriptionStatus)
  | deleteRow (id : Nat)
deriving DecidableEq, Repr

/-- Store-write effects (as opposed to executor invocations). -/
def Effect.isStore : Effect → Bool
  | .updateStatus _ _ => true
  | .deleteRow _ => true
  | _ => false

/-- HTTP-executor invocations. -/
def Effect.isHttpExec : Effect → Bool
  | .httpExec _ => true
  | _ => false

/-- Failure injection for the store writes used by `unsubscribe` and the
fetch used by `unsubscribeAll` (`none` = the store call succeeds). -/
structure StoreOracle where
  updateFail : Nat → Option Err := fun _ => none
  deleteFail : Nat → Option Err := fun _ => none
  findFail : Option Err := none

/-- The trailing `getRepository(Subscription).delete(subscription.id)` call
of `unsubscribe`. -/
def deleteStep (st : StoreOracle) (id : Nat) (db : DB) (effs : List Effect) :
    List Effect × Except Err DB :=
  match st.deleteFail id with
  | some e => (effs, Except.error e)
  | none => (effs ++ [Effect.deleteRow id], Except.ok (deleteSubscription db id))

/-- Embeds `unsubscribe`.  Returns the effect trace together with the store
outcome: effects already performed are kept in the trace even when a later
store write raises.  The email attempt is made only when
`subscription.unsubscribeMailTo && subscription.newsletterEmail` is truthy
(a present but empty mailto string is falsy in JS); nothing in this function
invokes the HTTP executor. -/
def unsubscribe (send : EmailOracle) (st : StoreOracle) (s : Subscription) (db : DB) :
    List Effect × Except Err DB :=
  if s.type = SubscriptionType.Newsletter then
    let attempt : Bool × List Effect :=
      match s.unsubscribeMailTo, s.newsletterEmail with
      | some mailTo, some ne =>
        if mailTo = "" then (false, [])
        else (sendUnsubscribeEmail send mailTo ne.address,
              [Effect.emailExec mailTo ne.address])
      | _, _ => (false, [])
    if !attempt.1 then
      match st.updateFail s.id with
      | some e => (attempt.2, Except.error e)
      | none =>
        (attempt.2 ++ [Effect.updateStatus s.id SubscriptionStatus.Unsubscribed],
         Except.ok (updateSubscriptionStatus db s.id SubscriptionStatus.Unsubscribed))
    else
      deleteStep st s.id db attempt.2
  else
    deleteStep st s.id db []

/-- The email-attempt outcome of one `unsubscribe` call, exactly as the
orchestrator computes it: `true` iff an attempt was made (mailto truthy and
relation loaded) and the email executor reported success. -/
def emailAttemptSucceeds (send : EmailOracle) (s : Subscription) : Bool :=
  match s.unsubscribeMailTo, s.newsletterEmail with
  | some mailTo, some ne =>
    if mailTo = "" then false else sendUnsubscribeEmail send mailTo ne.address
  | _, _ => false

/-! ## Bulk unsubscribe orchestrator -/

/-- The `find` query of `unsubscribeAll`: all subscriptions of the owning
user bound to the given newsletter email (relation loaded). -/
def subscriptionsForNewsletterEmail (ne : NewsletterEmail) (db : DB) : List Subscription :=
  db.subs.filter (fun s =>
    s.userId == ne.userId &&
      (match s.newsletterEmail with
       | some n => n.id == ne.id
       | none => false))

/-- The store fetch of `unsubscribeAll`, which may raise. -/
def findSubscriptionsFor (st : StoreOracle) (ne : NewsletterEmail) (db : DB) :
    Except Err (List Subscription) :=
  match st.findFail with
  | some e => Except.error e
  | none => Except.ok (subscriptionsForNewsletterEmail ne db)

/-- The sequential loop of `unsubscribeAll`: each item is processed inside
its own try/catch, so a raising item leaves the store as it was and the loop
moves on.  The second component records the ids of the subscriptions the
loop attempted (the per-iteration work, observable in the source as the
per-item log line on failure). -/
def unsubscribeLoop (send : EmailOracle) (st : StoreOracle) :
    List Subscription → DB → DB × List Nat
  | [], db => (db, [])
  | s :: rest, db =>
    let db1 :=
      match (unsubscribe send st s db).2 with
      | Except.ok d => d
      | Except.error _ => db
    let r := unsubscribeLoop send st rest db1
    (r.1, s.id :: r.2)

/-- Embeds `unsubscribeAll`: fetch the bound subscriptions and run the loop;
a raising fetch is caught and the call returns with the store untouched. -/
def unsubscribeAll (send : EmailOracle) (st : StoreOracle) (ne : NewsletterEmail) (db : DB) :
    DB × List Nat :=
  match findSubscriptionsFor st ne db with
  | Except.error _ => (db, [])
  | Except.ok subscriptions => unsubscribeLoop send st subscriptions db

/-! ## Signup handler registry and base orchestration -/

/-- The provider-specific network call: `handler._subscribe(email)` returns
the list of newsletter names it activated, or raises. -/
abbrev SubscribeOracle := String → Except Err (List String)

/-- The four provider strategies of the registry. -/
inductive HandlerKind where
  | axiosEssentials
  | morningBrew
  | milkRoad
  | moneyStuff
deriving DecidableEq, Repr

/-- Embeds `getSubscribeHandler`: case-insensitive exact match against the
fixed provider keys, `none` for anything else. -/
def getSubscribeHandler (name : String) : Option HandlerKind :=
  match name.toLower with
  | "axios_essentials" => some HandlerKind.axiosEssentials
  | "morning_brew" => some HandlerKind.morningBrew
  | "milk_road" => some HandlerKind.milkRoad
  | "money_stuff" => some HandlerKind.moneyStuff
  | _ => none

/-- The fixed set of newsletter names each provider handler reports after
its outbound call succeeds. -/
def handlerNames : HandlerKind → List String
  | HandlerKind.axiosEssentials => ["Axios AM", "Axios PM", "Axios Finish Line"]
  | HandlerKind.morningBrew => ["Morning Brew"]
  | HandlerKind.milkRoad => ["Milk Road"]
  | HandlerKind.moneyStuff => ["Money Stuff"]

/-- A provider handler as a `SubscribeOracle`: one outbound network call
(`net` is its outcome) followed by the fixed name list of the handler. -/
def handlerSubscribe (k : HandlerKind) (net : Except Err Unit) : SubscribeOracle :=
  fun _email =>
    match net with
    | Except.error e => Except.error e
    | Except.ok _ => Except.ok (handlerNames k)

/-- `getRepository(NewsletterEmail).findOneBy({user: {id: userId}})`. -/
def findNewsletterEmailByUser (userId : Nat) (db : DB) : Option NewsletterEmail :=
  db.newsletterEmails.find? (fun ne => ne.userId == userId)

/-- Modelled from the spec: `createNewsletterEmail(userId)` lives in
`./newsletters`, which is not under `src/`; per the spec it provisions a new
receiving mailbox address owned by the user. -/
def createNewsletterEmail (userId : Nat) (db : DB) : NewsletterEmail × DB :=
  let ne : NewsletterEmail :=
    { id := db.nextNeId,
      address := "user-" ++ toString db.nextNeId ++ "@inbox.omnivore.app",
      userId := userId }
  (ne, { db with newsletterEmails := db.newsletterEmails ++ [ne],
                 nextNeId := db.nextNeId + 1 })

/-- Step 1 of `handleSubscribe`: an existing newsletter email of the user,
or a newly provisioned one. -/
def resolveNewsletterEmail (userId : Nat) (db : DB) : NewsletterEmail × DB :=
  match findNewsletterEmailByUser userId db with
  | some ne => (ne, db)
  | none => createNewsletterEmail userId db

/-- The row object literal saved by `handleSubscribe` for one returned name
(named so the theorems can refer to it).  The `type` of the row is the entity
column default, modelled from the spec: rows created here reference a
NewsletterEmail and per the spec such subscriptions are Newsletter-typed. -/
def signupRowOf (userId : Nat) (ne : NewsletterEmail) (nm : String) (id : Nat) : Subscription :=
  { id := id,
    name := nm,
    userId := userId,
    type := SubscriptionType.Newsletter,
    status := SubscriptionStatus.Active,
    newsletterEmail := some ne }

/-- One `getRepository(Subscription).save({name, newsletterEmail, user,
status: Active})` call of `handleSubscribe`. -/
def saveSignupSubscription (userId : Nat) (ne : NewsletterEmail) (nm : String) (db : DB) :
    Except Err (Subscription × DB) :=
  match insertSubscription db (signupRowOf userId ne nm db.nextId) with
  | Except.error e => Except.error e
  | Except.ok db2 => Except.ok (signupRowOf userId ne nm db.nextId, db2)

/-- The `Promise.all` over the individual save calls: every save is
attempted (each promise runs independently, so the rows already saved stay
persisted); the last component is the first rejection reason when some save
raised, in which case `Promise.all` rejects with it. -/
def saveAllSignups (userId : Nat) (ne : NewsletterEmail) :
    List String → DB → List Subscription × DB × Option Err
  | [], db => ([], db, none)
  | nm :: rest, db =>
    match saveSignupSubscription userId ne nm db with
    | Except.ok (s, db1) =>
      let r := saveAllSignups userId ne rest db1
      (s :: r.1, r.2.1, r.2.2)
    | Except.error e =>
      let r := saveAllSignups userId ne rest db
      (r.1, r.2.1, some e)

/-- Embeds `SubscribeHandler.handleSubscribe` (the provider call is the
`subscribeOracle` parameter; `name` is used only for logging in the source).
A raising lookup/provision/provider call and the empty-list case are inside
the try/catch and surface as `Except.ok none`.  The final
`return Promise.all(newSubscriptions)` is NOT awaited: returning the promise
leaves the try block, so a rejected save escapes the catch and the call
rejects to its caller — that path is `Except.error`, with the store keeping
the rows whose saves succeeded. -/
def handleSubscribe (subscribeOracle : SubscribeOracle) (userId : Nat) (name : String)
    (db : DB) : Except Err (Option (List Subscription)) × DB :=
  match subscribeOracle (resolveNewsletterEmail userId db).1.address with
  | Except.error _ => (Except.ok none, (resolveNewsletterEmail userId db).2)
  | Except.ok subscribedNames =>
    if subscribedNames.length = 0 then
      (Except.ok none, (resolveNewsletterEmail userId db).2)
    else
      match (saveAllSignups userId (resolveNewsletterEmail userId db).1 subscribedNames
          (resolveNewsletterEmail userId db).2).2.2 with
      | some e =>
        (Except.error e,
         (saveAllSignups userId (resolveNewsletterEmail userId db).1 subscribedNames
          (resolveNewsletterEmail userId db).2).2.1)
      | none =>
        (Except.ok (some (saveAllSignups userId (resolveNewsletterEmail userId db).1
            subscribedNames (resolveNewsletterEmail userId db).2).1),
         (saveAllSignups userId (resolveNewsletterEmail userId db).1 subscribedNames
          (resolveNewsletterEmail userId db).2).2.1)

/-- The (user, name, type) uniqueness invariant over the stored rows. -/
def UniqueKeys (db : DB) : Prop :=
  db.subs.Pairwise (fun a b => sameKey a b = false)

/-- The executor-invocation part of the `unsubscribe` trace: one email
attempt when the mailto target is truthy and the relation is loaded,
nothing otherwise. -/
def attemptTrace (send : EmailOracle) (s : Subscription) : List Effect :=
  match s.unsubscribeMailTo, s.newsletterEmail with
  | some mailTo, some ne =>
    if mailTo = "" then [] else [Effect.emailExec mailTo ne.address]
  | _, _ => []

/-! ## Concrete fixtures used by the witnesses -/

/-- Mail transport that accepts every send. -/
def sendAlwaysTrue : EmailOracle := fun _ => Except.ok true

/-- Mail transport that rejects every send (returns `false`, no raise). -/
def sendAlwaysFalse : EmailOracle := fun _ => Except.ok false

/-- Store with no injected failures. -/
def storeOk : StoreOracle := {}

/-- Store whose delete of row 3 raises. -/
def storeDelete3Fails : StoreOracle :=
  { deleteFail := fun id => if id = 3 then some "connection reset" else none }

/-- Store whose fetch raises. -/
def storeFindFails : StoreOracle := { findFail := some "connection reset" }

def neW : NewsletterEmail := { id := 0, address := "inbox@omnivore.app", userId := 1 }

def newsletterSubW : Subscription :=
  { id := 3, name := "Daily", userId := 1,
    type := SubscriptionType.Newsletter, status := SubscriptionStatus.Active,
    unsubscribeMailTo := some "unsub@provider.com",
    newsletterEmail := some neW }

def newsletterSubNoRelW : Subscription :=
  { id := 6, name := "Weekly", userId := 1,
    type := SubscriptionType.Newsletter, status := SubscriptionStatus.Active,
    unsubscribeMailTo := some "unsub@weekly.com",
    newsletterEmail := none }

def rssSubW : Subscription :=
  { id := 4, name := "Feed", userId := 1,
    type := SubscriptionType.Rss, status := SubscriptionStatus.Active }

def newsletterSub2W : Subscription :=
  { id := 5, name := "Evening", userId := 1,
    type := SubscriptionType.Newsletter, status := SubscriptionStatus.Active,
    unsubscribeMailTo := some "unsub@evening.com",
    newsletterEmail := some neW }

def dbW : DB :=
  { subs := [newsletterSubW, rssSubW, newsletterSub2W],
    newsletterEmails := [neW], nextId := 7, nextNeId := 1 }

def saveInputW : SaveSubscriptionInput :=
  { userId := 2, name := "Tech Digest", newsletterEmail := neW,
    unsubscribeMailTo := some "unsub@tech.com" }

def saveInput2W : SaveSubscriptionInput :=
  { userId := 2, name := "Tech Digest", newsletterEmail := neW,
    unsubscribeMailTo := some "unsub2@tech.com", icon := some "icon.png" }

/-- Provider oracle that reports the Morning Brew newsletter as activated. -/
def morningBrewOracle : SubscribeOracle := fun _ => Except.ok ["Morning Brew"]

/-- Provider oracle whose network call raises. -/
def failingOracle : SubscribeOracle := fun _ => Except.error "ECONNREFUSED"

/-- Provider oracle that reports no activated newsletters. -/
def emptyOracle : SubscribeOracle := fun _ => Except.ok []

/-- A store already holding a Morning Brew subscription for user 1. -/
def mbRow : Subscription :=
  { id := 0, name := "Morning Brew", userId := 1,
    type := SubscriptionType.Newsletter, status := SubscriptionStatus.Unsubscribed,
    lastFetchedAt := some 5, newsletterEmail := some neW }

def dupDb : DB :=
  { subs := [mbRow], newsletterEmails := [neW], nextId := 1, nextNeId := 1 }

/-! ## General list lemmas -/

theorem find?_append_of_none {α : Type} (p : α → Bool) (l1 l2 : List α)
    (h : l1.find? p = none) : (l1 ++ l2).find? p = l2.find? p := by
  induction l1 with
  | nil => simp
  | cons a t ih =>
    cases hp : p a with
    | true => simp [List.find?, hp] at h
    | false =>
      simp only [List.find?, hp] at h
      simpa [List.find?, hp] using ih h

theorem find?_map_of_pred {α : Type} (f : α → α) (p : α → Bool)
    (hp : ∀ x, p (f x) = p x) (l : List α) :
    (l.map f).find? p = Option.map f (l.find? p) := by
  induction l with
  | nil => rfl
  | cons a t ih =>
    cases ha : p a with
    | true => simp [List.find?, hp a, ha]
    | false => simp [List.find?, hp a, ha, ih]

theorem countP_map_of_pred {α : Type} (f : α → α) (p : α → Bool)
    (hp : ∀ x, p (f x) = p x) (l : List α) :
    (l.map f).countP p = l.countP p := by
  rw [List.countP_map]
  exact List.countP_congr (fun x _ => by simp [hp x])

/-! ## Lemmas about the unsubscribe orchestrator -/

theorem unsubscribe_eq_of_attempt_false (send : EmailOracle) (st : StoreOracle)
    (s : Subscription) (db : DB) (hN : s.type = SubscriptionType.Newsletter)
    (hf : emailAttemptSucceeds send s = false) (hu : st.updateFail s.id = none) :
    unsubscribe send st s db =
      (attemptTrace send s ++ [Effect.updateStatus s.id SubscriptionStatus.Unsubscribed],
       Except.ok (updateSubscriptionStatus db s.id SubscriptionStatus.Unsubscribed)) := by
  unfold unsubscribe attemptTrace
  rw [if_pos hN]
  unfold emailAttemptSucceeds at hf
  rcases hm : s.unsubscribeMailTo with _ | mailTo <;>
    rcases hne : s.newsletterEmail with _ | ne
  · simp only [hm, hne]; simp [hu]
  · simp only [hm, hne]; simp [hu]
  · simp only [hm, hne]; simp [hu]
  · simp only [hm, hne] at hf ⊢
    by_cases hm0 : mailTo = ""
    · simp [hm0, hu]
    · simp only [hm0, if_neg, ite_false] at hf
      simp [hm0, hf, hu]

theorem unsubscribe_eq_of_attempt_true (send : EmailOracle) (st : StoreOracle)
    (s : Subscription) (db : DB) (hN : s.type = SubscriptionType.Newsletter)
    (ht : emailAttemptSucceeds send s = true) (hd : st.deleteFail s.id = none) :
    unsubscribe send st s db =
      (attemptTrace send s ++ [Effect.deleteRow s.id],
       Except.ok (deleteSubscription db s.id)) := by
  unfold unsubscribe attemptTrace
  rw [if_pos hN]
  unfold emailAttemptSucceeds at ht
  rcases hm : s.unsubscribeMailTo with _ | mailTo <;>
    rcases hne : s.newsletterEmail with _ | ne
  · simp only [hm, hne] at ht; simp at ht
  · simp only [hm, hne] at ht; simp at ht
  · simp only [hm, hne] at ht; simp at ht
  · simp only [hm, hne] at ht ⊢
    by_cases hm0 : mailTo = ""
    · simp [hm0] at ht
    · simp only [hm0, if_neg, ite_false] at ht
      simp [hm0, ht, deleteStep, hd]

theorem attemptTrace_filter_isStore (send : EmailOracle) (s : Subscription) :
    (attemptTrace send s).filter Effect.isStore = [] := by
  unfold attemptTrace
  rcases s.unsubscribeMailTo with _ | mailTo <;>
    rcases s.newsletterEmail with _ | ne <;>
    simp [Effect.isStore]

theorem attemptTrace_no_update (send : EmailOracle) (s : Subscription)
    (i : Nat) (stt : SubscriptionStatus) :
    Effect.updateStatus i stt ∉ attemptTrace send s := by
  unfold attemptTrace
  rcases s.unsubscribeMailTo with _ | mailTo <;>
    rcases s.newsletterEmail with _ | ne <;> simp

theorem attemptTrace_no_delete (send : EmailOracle) (s : Subscription) (i : Nat) :
    Effect.deleteRow i ∉ attemptTrace send s := by
  unfold attemptTrace
  rcases s.unsubscribeMailTo with _ | mailTo <;>
    rcases s.newsletterEmail with _ | ne <;> simp

theorem attemptTrace_no_http (send : EmailOracle) (s : Subscription) (u : String) :
    Effect.httpExec u ∉ attemptTrace send s := by
  unfold attemptTrace
  rcases s.unsubscribeMailTo with _ | mailTo <;>
    rcases s.newsletterEmail with _ | ne <;> simp

theorem attemptTrace_filter_http (send : EmailOracle) (s : Subscription) :
    (attemptTrace send s).filter Effect.isHttpExec = [] := by
  unfold attemptTrace
  rcases s.unsubscribeMailTo with _ | mailTo <;>
    rcases s.newsletterEmail with _ | ne <;>
    simp [Effect.isHttpExec]

theorem unsubscribe_err_of_attempt_false (send : EmailOracle) (st : StoreOracle)
    (s : Subscription) (db : DB) (e : Err) (hN : s.type = SubscriptionType.Newsletter)
    (hf : emailAttemptSucceeds send s = false) (hu : st.updateFail s.id = some e) :
    unsubscribe send st s db = (attemptTrace send s, Except.error e) := by
  unfold unsubscribe attemptTrace
  rw [if_pos hN]
  unfold emailAttemptSucceeds at hf
  rcases hm : s.unsubscribeMailTo with _ | mailTo <;>
    rcases hne : s.newsletterEmail with _ | ne
  · simp only [hm, hne]; simp [hu]
  · simp only [hm, hne]; simp [hu]
  · simp only [hm, hne]; simp [hu]
  · simp only [hm, hne] at hf ⊢
    by_cases hm0 : mailTo = ""
    · simp [hm0, hu]
    · simp only [hm0, if_neg, ite_false] at hf
      simp [hm0, hf, hu]

theorem unsubscribe_err_of_attempt_true (send : EmailOracle) (st : StoreOracle)
    (s : Subscription) (db : DB) (e : Err) (hN : s.type = SubscriptionType.Newsletter)
    (ht : emailAttemptSucceeds send s = true) (hd : st.deleteFail s.id = some e) :
    unsubscribe send st s db = (attemptTrace send s, Except.error e) := by
  unfold unsubscribe attemptTrace
  rw [if_pos hN]
  unfold emailAttemptSucceeds at ht
  rcases hm : s.unsubscribeMailTo with _ | mailTo <;>
    rcases hne : s.newsletterEmail with _ | ne
  · simp only [hm, hne] at ht; simp at ht
  · simp only [hm, hne] at ht; simp at ht
  · simp only [hm, hne] at ht; simp at ht
  · simp only [hm, hne] at ht ⊢
    by_cases hm0 : mailTo = ""
    · simp [hm0] at ht
    · simp only [hm0, if_neg, ite_false] at ht
      simp [hm0, ht, deleteStep, hd]

/-! ## C1 -/

/-- C1: for a Newsletter subscription (with the store writes succeeding),
`unsubscribe` deletes the row without touching its status when the email
attempt returns true, sets the status to Unsubscribed without deleting when
it does not (including when no attempt was made), and in every call performs
exactly one store write. -/
theorem unsubscribe_newsletter_one_store_op (send : EmailOracle) (st : StoreOracle)
    (s : Subscription) (db : DB) (hN : s.type = SubscriptionType.Newsletter)
    (hu : st.updateFail s.id = none) (hd : st.deleteFail s.id = none) :
    ∃ effs db2, unsubscribe send st s db = (effs, Except.ok db2) ∧
      (effs.filter Effect.isStore).length = 1 ∧
      (emailAttemptSucceeds send s = true →
        Effect.deleteRow s.id ∈ effs ∧
        (∀ i stt, Effect.updateStatus i stt ∉ effs) ∧
        db2 = deleteSubscription db s.id) ∧
      (emailAttemptSucceeds send s = false →
        Effect.updateStatus s.id SubscriptionStatus.Unsubscribed ∈ effs ∧
        (∀ i, Effect.deleteRow i ∉ effs) ∧
        db2 = updateSubscriptionStatus db s.id SubscriptionStatus.Unsubscribed) := by
  cases hres : emailAttemptSucceeds send s with
  | true =>
    refine ⟨attemptTrace send s ++ [Effect.deleteRow s.id], deleteSubscription db s.id,
      unsubscribe_eq_of_attempt_true send st s db hN hres hd, ?_, ?_, ?_⟩
    · simp [List.filter_append, attemptTrace_filter_isStore, Effect.isStore]
    · exact fun _ => ⟨by simp, fun i stt => by
        simp [attemptTrace_no_update send s i stt], rfl⟩
    · intro hcontra; simp at hcontra
  | false =>
    refine ⟨attemptTrace send s ++ [Effect.updateStatus s.id SubscriptionStatus.Unsubscribed],
      updateSubscriptionStatus db s.id SubscriptionStatus.Unsubscribed,
      unsubscribe_eq_of_attempt_false send st s db hN hres hu, ?_, ?_, ?_⟩
    · simp [List.filter_append, attemptTrace_filter_isStore, Effect.isStore]
    · intro hcontra; simp at hcontra
    · exact fun _ => ⟨by simp, fun i => by
        simp [attemptTrace_no_delete send s i], rfl⟩

/-- Witness for C1: concrete Newsletter subscriptions against an accepting
and a rejecting mail transport. -/
theorem unsubscribe_newsletter_one_store_op_witness :
    (∃ effs db2, unsubscribe sendAlwaysTrue storeOk newsletterSubW dbW = (effs, Except.ok db2) ∧
      (effs.filter Effect.isStore).length = 1 ∧
      (emailAttemptSucceeds sendAlwaysTrue newsletterSubW = true →
        Effect.deleteRow newsletterSubW.id ∈ effs ∧
        (∀ i stt, Effect.updateStatus i stt ∉ effs) ∧
        db2 = deleteSubscription dbW newsletterSubW.id) ∧
      (emailAttemptSucceeds sendAlwaysTrue newsletterSubW = false →
        Effect.updateStatus newsletterSubW.id SubscriptionStatus.Unsubscribed ∈ effs ∧
        (∀ i, Effect.deleteRow i ∉ effs) ∧
        db2 = updateSubscriptionStatus dbW newsletterSubW.id SubscriptionStatus.Unsubscribed)) ∧
    emailAttemptSucceeds sendAlwaysTrue newsletterSubW = true ∧
    emailAttemptSucceeds sendAlwaysFalse newsletterSubW = false :=
  ⟨unsubscribe_newsletter_one_store_op sendAlwaysTrue storeOk newsletterSubW dbW rfl rfl rfl,
   by decide, by decide⟩

/-! ## C2 -/

/-- C2: for a subscription whose type is not Newsletter (i.e. Rss),
`unsubscribe` never invokes the email or HTTP executor, and (when the store
delete succeeds) its only action is deleting the row. -/
theorem unsubscribe_rss_deletes_without_executors (send : EmailOracle) (st : StoreOracle)
    (s : Subscription) (db : DB) (hT : s.type ≠ SubscriptionType.Newsletter) :
    (∀ m f, Effect.emailExec m f ∉ (unsubscribe send st s db).1) ∧
    (∀ u, Effect.httpExec u ∉ (unsubscribe send st s db).1) ∧
    (st.deleteFail s.id = none →
      unsubscribe send st s db =
        ([Effect.deleteRow s.id], Except.ok (deleteSubscription db s.id))) := by
  have hbase : unsubscribe send st s db = deleteStep st s.id db [] := by
    unfold unsubscribe
    rw [if_neg hT]
  refine ⟨?_, ?_, ?_⟩
  · intro m f
    rw [hbase]; unfold deleteStep
    cases st.deleteFail s.id <;> simp
  · intro u
    rw [hbase]; unfold deleteStep
    cases st.deleteFail s.id <;> simp
  · intro hd
    rw [hbase]; unfold deleteStep
    rw [hd]
    simp

/-- Witness for C2: a concrete Rss subscription is deleted with no executor
invocation. -/
theorem unsubscribe_rss_deletes_without_executors_witness :
    (∀ m f, Effect.emailExec m f ∉ (unsubscribe sendAlwaysTrue storeOk rssSubW dbW).1) ∧
    (∀ u, Effect.httpExec u ∉ (unsubscribe sendAlwaysTrue storeOk rssSubW dbW).1) ∧
    (storeOk.deleteFail rssSubW.id = none →
      unsubscribe sendAlwaysTrue storeOk rssSubW dbW =
        ([Effect.deleteRow rssSubW.id], Except.ok (deleteSubscription dbW rssSubW.id))) :=
  unsubscribe_rss_deletes_without_executors sendAlwaysTrue storeOk rssSubW dbW (by decide)

/-! ## C9 -/

/-- C9: no call of `unsubscribe` ever invokes the HTTP executor, whatever
the subscription, the store behaviour or the email outcome: the trace of a
call contains no HTTP invocation. -/
theorem unsubscribe_never_http (send : EmailOracle) (st : StoreOracle)
    (s : Subscription) (db : DB) :
    (unsubscribe send st s db).1.filter Effect.isHttpExec = [] := by
  by_cases hN : s.type = SubscriptionType.Newsletter
  · cases hres : emailAttemptSucceeds send s with
    | true =>
      cases hd : st.deleteFail s.id with
      | none =>
        rw [unsubscribe_eq_of_attempt_true send st s db hN hres hd]
        simp [List.filter_append, attemptTrace_filter_http, Effect.isHttpExec]
      | some e =>
        rw [unsubscribe_err_of_attempt_true send st s db e hN hres hd]
        simp [attemptTrace_filter_http]
    | false =>
      cases hu : st.updateFail s.id with
      | none =>
        rw [unsubscribe_eq_of_attempt_false send st s db hN hres hu]
        simp [List.filter_append, attemptTrace_filter_http, Effect.isHttpExec]
      | some e =>
        rw [unsubscribe_err_of_attempt_false send st s db e hN hres hu]
        simp [attemptTrace_filter_http]
  · have hbase : unsubscribe send st s db = deleteStep st s.id db [] := by
      unfold unsubscribe
      rw [if_neg hN]
    rw [hbase]; unfold deleteStep
    cases st.deleteFail s.id <;> simp [Effect.isHttpExec]

/-! ## C10 -/

/-- C10: a Newsletter subscription with a mailto target but no loaded
newsletterEmail relation gets no email attempt; its status is set to
Unsubscribed and the row is not deleted, exactly as on a failed attempt. -/
theorem unsubscribe_missing_relation_demotes (send : EmailOracle) (st : StoreOracle)
    (s : Subscription) (db : DB) (m : String)
    (hN : s.type = SubscriptionType.Newsletter)
    (hm : s.unsubscribeMailTo = some m) (hne : s.newsletterEmail = none)
    (hu : st.updateFail s.id = none) :
    unsubscribe send st s db =
      ([Effect.updateStatus s.id SubscriptionStatus.Unsubscribed],
       Except.ok (updateSubscriptionStatus db s.id SubscriptionStatus.Unsubscribed)) ∧
    (∀ mt f, Effect.emailExec mt f ∉ (unsubscribe send st s db).1) := by
  have hf : emailAttemptSucceeds send s = false := by
    unfold emailAttemptSucceeds
    rw [hm, hne]
  have htr : attemptTrace send s = [] := by
    unfold attemptTrace
    rw [hm, hne]
  have heq := unsubscribe_eq_of_attempt_false send st s db hN hf hu
  rw [htr] at heq
  refine ⟨by simpa using heq, ?_⟩
  intro mt f
  rw [heq]
  simp

/-! ## C8 -/

/-- C8: both executors always return a boolean, never letting an error past
their boundary.  The email executor returns true exactly when the mailto
target parses and the transport reports success (so false on parse failure
or an unsuccessful/raising send); the HTTP executor issues its GET with the
5000 ms timeout bound and returns true exactly when that call completes,
false (not a raised error) when it raises. -/
theorem executors_never_throw (send : EmailOracle) (get : HttpOracle)
    (mailTo fromA url : String) :
    (sendUnsubscribeEmail send mailTo fromA = true ↔
      ∃ p, parseUnsubscribeMailTo mailTo = Except.ok p ∧
        send { toAddr := p.toAddr, subject := p.subject,
               text := UNSUBSCRIBE_EMAIL_TEXT, fromAddr := fromA } = Except.ok true) ∧
    (∀ err, parseUnsubscribeMailTo mailTo = Except.error err →
      sendUnsubscribeEmail send mailTo fromA = false) ∧
    (sendUnsubscribeHttpRequest get url = true ↔
      get url httpTimeoutMs = Except.ok ()) ∧
    (∀ e, get url httpTimeoutMs = Except.error e →
      sendUnsubscribeHttpRequest get url = false) := by
  refine ⟨?_, ?_, ?_, ?_⟩
  · unfold sendUnsubscribeEmail
    cases hp : parseUnsubscribeMailTo mailTo with
    | error err => simp
    | ok p =>
      cases hs : send ⟨p.toAddr, p.subject, UNSUBSCRIBE_EMAIL_TEXT, fromA⟩ with
      | error e => simp [hs]
      | ok sent => cases sent <;> simp [hs]
  · intro err herr
    unfold sendUnsubscribeEmail
    rw [herr]
  · unfold sendUnsubscribeHttpRequest
    cases hg : get url httpTimeoutMs with
    | error e => simp
    | ok u => simp
  · intro e he
    unfold sendUnsubscribeHttpRequest
    rw [he]

/-- Witness for C8: concrete transports on both the success and the raising
side. -/
theorem executors_never_throw_witness :
    sendUnsubscribeEmail sendAlwaysTrue "user@example.com" "inbox@omnivore.app" = true ∧
    sendUnsubscribeEmail sendAlwaysTrue "nodomain" "inbox@omnivore.app" = false ∧
    sendUnsubscribeHttpRequest (fun _ _ => Except.error "timeout of 5000ms exceeded")
      "https://example.com/unsub" = false := by
  refine ⟨?_, ?_, ?_⟩
  · exact (executors_never_throw sendAlwaysTrue (fun _ _ => Except.ok ())
      "user@example.com" "inbox@omnivore.app" "u").1.mpr
      ⟨{ toAddr := "user@example.com", subject := "Unsubscribe" }, by decide, rfl⟩
  · exact (executors_never_throw sendAlwaysTrue (fun _ _ => Except.ok ())
      "nodomain" "inbox@omnivore.app" "u").2.1
      (ParseError.invalidAddress "nodomain") (by decide)
  · exact (executors_never_throw sendAlwaysTrue
      (fun _ _ => Except.error "timeout of 5000ms exceeded")
      "user@example.com" "inbox@omnivore.app" "https://example.com/unsub").2.2.2
      "timeout of 5000ms exceeded" rfl

/-! ## C6 -/

theorem unsubscribeLoop_trace (send : EmailOracle) (st : StoreOracle) :
    ∀ (l : List Subscription) (db : DB),
      (unsubscribeLoop send st l db).2 = l.map (fun s => s.id) := by
  intro l
  induction l with
  | nil => intro db; rfl
  | cons s rest ih => intro db; simp [unsubscribeLoop, ih]

/-- C6: `unsubscribeAll` returns normally for every store and transport
behaviour.  When the fetch succeeds, the loop attempts every bound
subscription in order — whatever per-item errors the store injects, so a
raising item k never stops the processing of the others — and when the
fetch itself raises, the call still returns with the store untouched. -/
theorem unsubscribeAll_isolates_failures (send : EmailOracle) (st : StoreOracle)
    (ne : NewsletterEmail) (db : DB) :
    (st.findFail = none →
      (unsubscribeAll send st ne db).2 =
        (subscriptionsForNewsletterEmail ne db).map (fun s => s.id)) ∧
    (∀ e, st.findFail = some e → unsubscribeAll send st ne db = (db, [])) := by
  constructor
  · intro h
    unfold unsubscribeAll findSubscriptionsFor
    rw [h]
    simp [unsubscribeLoop_trace]
  · intro e h
    unfold unsubscribeAll findSubscriptionsFor
    rw [h]

/-- Witness for C6: with the delete of the first bound subscription (id 3)
raising, both bound subscriptions (ids 3 and 5) are still attempted; with a
raising fetch the call returns the store unchanged. -/
theorem unsubscribeAll_isolates_failures_witness :
    (unsubscribeAll sendAlwaysTrue storeDelete3Fails neW dbW).2 = [3, 5] ∧
    unsubscribeAll sendAlwaysTrue storeFindFails neW dbW = (dbW, []) :=
  ⟨((unsubscribeAll_isolates_failures sendAlwaysTrue storeDelete3Fails neW dbW).1 rfl).trans
      (by decide),
   (unsubscribeAll_isolates_failures sendAlwaysTrue storeFindFails neW dbW).2
      "connection reset" rfl⟩

/-- Witness for C10: concrete Newsletter subscription with a mailto target
and an absent relation. -/
theorem unsubscribe_missing_relation_demotes_witness :
    unsubscribe sendAlwaysTrue storeOk newsletterSubNoRelW dbW =
      ([Effect.updateStatus newsletterSubNoRelW.id SubscriptionStatus.Unsubscribed],
       Except.ok (updateSubscriptionStatus dbW newsletterSubNoRelW.id
         SubscriptionStatus.Unsubscribed)) ∧
    (∀ mt f, Effect.emailExec mt f ∉ (unsubscribe sendAlwaysTrue storeOk newsletterSubNoRelW dbW).1) :=
  unsubscribe_missing_relation_demotes sendAlwaysTrue storeOk newsletterSubNoRelW dbW
    "unsub@weekly.com" rfl rfl rfl rfl

/-! ## C3 -/

theorem matchesNameUser_applyData (name : String) (userId : Nat)
    (d : SubscriptionData) (s : Subscription) :
    matchesNameUser name userId (applyData d s) = matchesNameUser name userId s := rfl

theorem updateData_pred_invariant (name : String) (userId : Nat) (id : Nat)
    (d : SubscriptionData) (s : Subscription) :
    matchesNameUser name userId (if s.id = id then applyData d s else s) =
      matchesNameUser name userId s := by
  by_cases h : s.id = id <;> simp [h, matchesNameUser_applyData]

theorem countMatching_updateData (name : String) (userId : Nat) (db : DB)
    (id : Nat) (d : SubscriptionData) :
    countMatching name userId (updateSubscriptionData db id d) =
      countMatching name userId db := by
  unfold countMatching updateSubscriptionData
  exact countP_map_of_pred _ _ (updateData_pred_invariant name userId id d) db.subs

theorem get_updateData (name : String) (userId : Nat) (db : DB)
    (id : Nat) (d : SubscriptionData) :
    getSubscriptionByNameAndUserId name userId (updateSubscriptionData db id d) =
      Option.map (fun s => if s.id = id then applyData d s else s)
        (getSubscriptionByNameAndUserId name userId db) := by
  unfold getSubscriptionByNameAndUserId updateSubscriptionData
  exact find?_map_of_pred _ _ (updateData_pred_invariant name userId id d) db.subs

theorem no_match_no_conflict (nm : String) (uid : Nat) (db : DB) (row : Subscription)
    (hrow : row.name = nm ∧ row.userId = uid ∧ row.type = SubscriptionType.Newsletter)
    (h : getSubscriptionByNameAndUserId nm uid db = none) :
    db.subs.any (fun r => sameKey r row) = false := by
  unfold getSubscriptionByNameAndUserId at h
  rw [List.find?_eq_none] at h
  rw [← Bool.not_eq_true, List.any_eq_true]
  rintro ⟨r, hr, hkey⟩
  refine h r hr ?_
  unfold sameKey at hkey
  unfold matchesNameUser
  rw [hrow.1, hrow.2.1, hrow.2.2] at hkey
  exact hkey

/-- C3: `saveSubscription` is an upsert.  With an existing (user, name,
Newsletter) row it updates the mutable metadata of that row and returns its id
without changing the number of rows; with none it inserts one new row with
status Active and returns the fresh id; called twice with the same
(userId, name) starting from a store with no matching row, the second call
returns the id from the first call and exactly one matching row exists afterwards,
which `getSubscriptionByNameAndUserId` returns. -/
theorem saveSubscription_upsert (input input2 : SaveSubscriptionInput)
    (now now2 : Nat) (db : DB)
    (hn : input2.name = input.name) (hu : input2.userId = input.userId) :
    (∀ ex, getSubscriptionByNameAndUserId input.name input.userId db = some ex →
      saveSubscription input now db =
        Except.ok (ex.id, updateSubscriptionData db ex.id
          ⟨input.unsubscribeHttpUrl, input.unsubscribeMailTo, input.icon, now⟩) ∧
      (updateSubscriptionData db ex.id
          ⟨input.unsubscribeHttpUrl, input.unsubscribeMailTo, input.icon, now⟩).subs.length
        = db.subs.length) ∧
    (getSubscriptionByNameAndUserId input.name input.userId db = none →
      ∃ row db1, saveSubscription input now db = Except.ok (db.nextId, db1) ∧
        db1.subs = db.subs ++ [row] ∧ row.id = db.nextId ∧
        row.name = input.name ∧ row.userId = input.userId ∧
        row.type = SubscriptionType.Newsletter ∧
        row.status = SubscriptionStatus.Active) ∧
    (countMatching input.name input.userId db = 0 →
      ∃ db1 db2 r, saveSubscription input now db = Except.ok (db.nextId, db1) ∧
        saveSubscription input2 now2 db1 = Except.ok (db.nextId, db2) ∧
        countMatching input.name input.userId db2 = 1 ∧
        getSubscriptionByNameAndUserId input.name input.userId db2 = some r) := by
  have hupd : ∀ ex, getSubscriptionByNameAndUserId input.name input.userId db = some ex →
      saveSubscription input now db =
        Except.ok (ex.id, updateSubscriptionData db ex.id
          ⟨input.unsubscribeHttpUrl, input.unsubscribeMailTo, input.icon, now⟩) := by
    intro ex hex
    unfold saveSubscription
    rw [hex]
  have hins : getSubscriptionByNameAndUserId input.name input.userId db = none →
      ∃ row db1, saveSubscription input now db = Except.ok (db.nextId, db1) ∧
        db1.subs = db.subs ++ [row] ∧ row.id = db.nextId ∧
        row.name = input.name ∧ row.userId = input.userId ∧
        row.type = SubscriptionType.Newsletter ∧
        row.status = SubscriptionStatus.Active := by
    intro hnone
    have hconf := no_match_no_conflict input.name input.userId db
      (saveRowOf input now db.nextId) ⟨rfl, rfl, rfl⟩ hnone
    refine ⟨saveRowOf input now db.nextId,
      { db with subs := db.subs ++ [saveRowOf input now db.nextId],
                nextId := db.nextId + 1 },
      ?_, rfl, rfl, rfl, rfl, rfl, rfl⟩
    unfold saveSubscription insertSubscription
    rw [hnone]
    simp [hconf]
    rfl
  refine ⟨fun ex hex => ⟨hupd ex hex, by simp [updateSubscriptionData]⟩, hins, ?_⟩
  intro hcount
  have hnone : getSubscriptionByNameAndUserId input.name input.userId db = none := by
    unfold getSubscriptionByNameAndUserId
    rw [List.find?_eq_none]
    intro x hx
    unfold countMatching at hcount
    rw [List.countP_eq_zero] at hcount
    exact hcount x hx
  obtain ⟨row, db1, heq1, hsubs1, hid, hnm, huid, hty, _⟩ := hins hnone
  have hprow : matchesNameUser input.name input.userId row = true := by
    unfold matchesNameUser
    rw [hnm, huid, hty]
    simp
  have hfind1 : getSubscriptionByNameAndUserId input.name input.userId db1 = some row := by
    unfold getSubscriptionByNameAndUserId at hnone ⊢
    rw [hsubs1, find?_append_of_none _ _ _ hnone]
    simp [List.find?, hprow]
  have hfind1' : getSubscriptionByNameAndUserId input2.name input2.userId db1 = some row := by
    rw [hn, hu]; exact hfind1
  have heq2 : saveSubscription input2 now2 db1 =
      Except.ok (row.id, updateSubscriptionData db1 row.id
        ⟨input2.unsubscribeHttpUrl, input2.unsubscribeMailTo, input2.icon, now2⟩) := by
    unfold saveSubscription
    rw [hfind1']
  have hcount1 : countMatching input.name input.userId db1 = 1 := by
    unfold countMatching at hcount ⊢
    rw [hsubs1, List.countP_append, hcount]
    simp [List.countP, List.countP.go, hprow]
  refine ⟨db1,
    updateSubscriptionData db1 row.id
      ⟨input2.unsubscribeHttpUrl, input2.unsubscribeMailTo, input2.icon, now2⟩,
    applyData ⟨input2.unsubscribeHttpUrl, input2.unsubscribeMailTo, input2.icon, now2⟩ row,
    heq1, ?_, ?_, ?_⟩
  · rw [← hid]
    exact heq2
  · rw [countMatching_updateData, hcount1]
  · rw [get_updateData, hfind1]
    simp

/-- Witness for C3: two saves of "Tech Digest" for user 2 into an empty
store. -/
theorem saveSubscription_upsert_witness :
    countMatching saveInputW.name saveInputW.userId {} = 0 ∧
    (∃ db1 db2 r, saveSubscription saveInputW 100 {} = Except.ok (DB.nextId {}, db1) ∧
      saveSubscription saveInput2W 200 db1 = Except.ok (DB.nextId {}, db2) ∧
      countMatching saveInputW.name saveInputW.userId db2 = 1 ∧
      getSubscriptionByNameAndUserId saveInputW.name saveInputW.userId db2 = some r) :=
  ⟨by decide,
   (saveSubscription_upsert saveInputW saveInput2W 100 200 {} rfl rfl).2.2 (by decide)⟩

/-! ## C4 -/

theorem sameKey_updateMap (id : Nat) (d : SubscriptionData) (a b : Subscription) :
    sameKey (if a.id = id then applyData d a else a)
        (if b.id = id then applyData d b else b) = sameKey a b := by
  by_cases ha : a.id = id <;> by_cases hb : b.id = id <;>
    simp [ha, hb, sameKey, applyData]

theorem insertSubscription_preserves_unique (db : DB) (row : Subscription) (db2 : DB)
    (h : insertSubscription db row = Except.ok db2) (hdb : UniqueKeys db) :
    UniqueKeys db2 := by
  unfold insertSubscription at h
  by_cases hc : db.subs.any (fun r => sameKey r row) = true
  · rw [if_pos hc] at h
    cases h
  · rw [if_neg hc] at h
    injection h with h
    subst h
    unfold UniqueKeys
    rw [List.pairwise_append]
    refine ⟨hdb, List.pairwise_singleton _ _, ?_⟩
    intro a ha b hb
    have hb' : b = row := by simpa using hb
    subst hb'
    cases hval : sameKey a b with
    | false => rfl
    | true => exact absurd (List.any_eq_true.mpr ⟨a, ha, hval⟩) hc

theorem saveSignup_ok_inv (userId : Nat) (ne : NewsletterEmail) (nm : String)
    (db : DB) (s : Subscription) (db1 : DB)
    (h : saveSignupSubscription userId ne nm db = Except.ok (s, db1)) :
    s = signupRowOf userId ne nm db.nextId ∧
      insertSubscription db (signupRowOf userId ne nm db.nextId) = Except.ok db1 := by
  unfold saveSignupSubscription at h
  cases hi : insertSubscription db (signupRowOf userId ne nm db.nextId) with
  | error e => rw [hi] at h; cases h
  | ok d =>
    rw [hi] at h
    injection h with h
    injection h with h1 h2
    exact ⟨h1.symm, by rw [h2]⟩

theorem saveAllSignups_preserves_unique (userId : Nat) (ne : NewsletterEmail) :
    ∀ (names : List String) (db : DB), UniqueKeys db →
      UniqueKeys (saveAllSignups userId ne names db).2.1 := by
  intro names
  induction names with
  | nil => intro db h; exact h
  | cons nm rest ih =>
    intro db h
    unfold saveAllSignups
    cases hs : saveSignupSubscription userId ne nm db with
    | ok p =>
      obtain ⟨-, hins⟩ := saveSignup_ok_inv userId ne nm db p.1 p.2 (by rw [hs])
      exact ih p.2 (insertSubscription_preserves_unique db _ p.2 hins h)
    | error e => exact ih db h

theorem resolve_subs (userId : Nat) (db : DB) :
    (resolveNewsletterEmail userId db).2.subs = db.subs := by
  unfold resolveNewsletterEmail createNewsletterEmail
  cases findNewsletterEmailByUser userId db <;> rfl

theorem saveSignup_conflict (userId : Nat) (ne : NewsletterEmail) (nm : String) (db : DB)
    (h : ∃ r ∈ db.subs, r.name = nm ∧ r.userId = userId ∧
      r.type = SubscriptionType.Newsletter) :
    saveSignupSubscription userId ne nm db =
      Except.error "duplicate key value violates unique constraint" := by
  obtain ⟨r, hr, h1, h2, h3⟩ := h
  have hc : db.subs.any (fun x => sameKey x (signupRowOf userId ne nm db.nextId)) = true := by
    rw [List.any_eq_true]
    exact ⟨r, hr, by simp [sameKey, signupRowOf, h1, h2, h3]⟩
  unfold saveSignupSubscription insertSubscription
  rw [if_pos hc]

theorem saveAllSignups_all_conflict (userId : Nat) (ne : NewsletterEmail) :
    ∀ (names : List String) (db : DB),
      (∀ n ∈ names, ∃ r ∈ db.subs, r.name = n ∧ r.userId = userId ∧
        r.type = SubscriptionType.Newsletter) →
      (saveAllSignups userId ne names db).1 = [] ∧
      (saveAllSignups userId ne names db).2.1 = db ∧
      (names ≠ [] → (saveAllSignups userId ne names db).2.2 =
        some "duplicate key value violates unique constraint") := by
  intro names
  induction names with
  | nil => intro db _; exact ⟨rfl, rfl, fun h => absurd rfl h⟩
  | cons nm rest ih =>
    intro db h
    have hconf := saveSignup_conflict userId ne nm db (h nm (by simp))
    have hrest := ih db (fun n hn => h n (by simp [hn]))
    unfold saveAllSignups
    rw [hconf]
    exact ⟨hrest.1, hrest.2.1, fun _ => rfl⟩

/-- C4 (amended): `saveSubscription` and `handleSubscribe` both preserve the
uniqueness of (user, name, type) over the stored rows; `saveSubscription`
does so by updating the existing row on re-subscribe, while `handleSubscribe`
never updates: its unconditional insert is rejected by the unique
constraint and — the final `Promise.all` being returned without `await` —
the rejection escapes the catch, so re-subscribing to existing names
through it leaves the subscription rows unchanged while the call rejects
with the store conflict error. -/
theorem subscription_key_unique_preserved :
    (∀ (input : SaveSubscriptionInput) (now : Nat) (db : DB) (id : Nat) (db2 : DB),
      UniqueKeys db → saveSubscription input now db = Except.ok (id, db2) →
      UniqueKeys db2) ∧
    (∀ (o : SubscribeOracle) (userId : Nat) (nm : String) (db : DB),
      UniqueKeys db → UniqueKeys (handleSubscribe o userId nm db).2) ∧
    (∀ (o : SubscribeOracle) (userId : Nat) (nm : String) (db : DB)
        (names : List String),
      o (resolveNewsletterEmail userId db).1.address = Except.ok names →
      (∀ n ∈ names, ∃ r ∈ db.subs, r.name = n ∧ r.userId = userId ∧
        r.type = SubscriptionType.Newsletter) →
      names ≠ [] →
      (handleSubscribe o userId nm db).1 =
        Except.error "duplicate key value violates unique constraint" ∧
      (handleSubscribe o userId nm db).2.subs = db.subs) := by
  refine ⟨?_, ?_, ?_⟩
  · intro input now db id db2 hdb h
    unfold saveSubscription at h
    cases hf : getSubscriptionByNameAndUserId input.name input.userId db with
    | some ex =>
      rw [hf] at h
      injection h with h
      injection h with h1 h2
      subst h2
      unfold UniqueKeys updateSubscriptionData
      rw [List.pairwise_map]
      exact hdb.imp (fun {a b} hab => by rw [sameKey_updateMap]; exact hab)
    | none =>
      rw [hf] at h
      cases hi : insertSubscription db (saveRowOf input now db.nextId) with
      | error e => rw [hi] at h; cases h
      | ok d =>
        rw [hi] at h
        injection h with h
        injection h with h1 h2
        subst h2
        exact insertSubscription_preserves_unique db _ _ hi hdb
  · intro o userId nm db hdb
    have hres : UniqueKeys (resolveNewsletterEmail userId db).2 := by
      unfold UniqueKeys
      rw [resolve_subs]
      exact hdb
    unfold handleSubscribe
    cases o (resolveNewsletterEmail userId db).1.address with
    | error e => exact hres
    | ok names =>
      by_cases hlen : names.length = 0
      · simpa [hlen] using hres
      · cases hflag : (saveAllSignups userId (resolveNewsletterEmail userId db).1 names
            (resolveNewsletterEmail userId db).2).2.2 with
        | none =>
          simpa [hlen, hflag] using
            saveAllSignups_preserves_unique userId (resolveNewsletterEmail userId db).1 names
              (resolveNewsletterEmail userId db).2 hres
        | some e =>
          simpa [hlen, hflag] using
            saveAllSignups_preserves_unique userId (resolveNewsletterEmail userId db).1 names
              (resolveNewsletterEmail userId db).2 hres
  · intro o userId nm db names ho hdup hne
    have hdup2 : ∀ n ∈ names, ∃ r ∈ (resolveNewsletterEmail userId db).2.subs,
        r.name = n ∧ r.userId = userId ∧ r.type = SubscriptionType.Newsletter := by
      rw [resolve_subs]
      exact hdup
    obtain ⟨hempty, hkeep, hflag⟩ :=
      saveAllSignups_all_conflict userId (resolveNewsletterEmail userId db).1 names
        (resolveNewsletterEmail userId db).2 hdup2
    have hlen : ¬ names.length = 0 := by
      simpa [List.length_eq_zero] using hne
    constructor
    · unfold handleSubscribe
      rw [ho]
      simp [hlen, hflag hne]
    · unfold handleSubscribe
      rw [ho]
      simp [hlen, hflag hne, hkeep, resolve_subs]

/-- Counterexample to C4 as stated: re-subscribing user 1 to the already
stored "Morning Brew" through `handleSubscribe` does not update the existing
row (its status stays Unsubscribed, its lastFetchedAt stays as before, no
row is added or changed); the save rejection passes through the un-awaited
`return Promise.all(...)` and the call rejects with the store error. -/
theorem handleSubscribe_resubscribe_updates_nothing :
    handleSubscribe morningBrewOracle 1 "morning_brew" dupDb =
      (Except.error "duplicate key value violates unique constraint", dupDb) ∧
    dupDb.subs.map Subscription.status = [SubscriptionStatus.Unsubscribed] ∧
    dupDb.subs.map Subscription.lastFetchedAt = [some 5] := by
  refine ⟨?_, rfl, rfl⟩
  rfl

/-- Witness for C4 (amended): concrete re-subscription scenario where the
insert is rejected, the rejection escapes, and no row changes. -/
theorem subscription_key_unique_preserved_witness :
    (handleSubscribe morningBrewOracle 1 "morning_brew" dupDb).1 =
      Except.error "duplicate key value violates unique constraint" ∧
    (handleSubscribe morningBrewOracle 1 "morning_brew" dupDb).2.subs = dupDb.subs :=
  subscription_key_unique_preserved.2.2 morningBrewOracle 1 "morning_brew" dupDb
    ["Morning Brew"] rfl (by decide) (by decide)

/-! ## C5 -/

/-- C5 is contradicted by the code at a concrete input.  When a row save
rejects — here the provider reports "Morning Brew" for user 1 while the
store already holds that (user, name, type) key — the rejection passes
through the un-awaited `return Promise.all(...)` at the end of the try
block and escapes the catch, so `handleSubscribe` rejects with the store
error instead of returning null.  The paths the try/catch does cover (a
raising provider call, an empty returned list) surface as null with no
subscription rows created, as the claim says. -/
theorem handleSubscribe_save_rejection_escapes :
    handleSubscribe morningBrewOracle 1 "morning_brew" dupDb =
      (Except.error "duplicate key value violates unique constraint", dupDb) ∧
    handleSubscribe failingOracle 1 "morning_brew" dupDb = (Except.ok none, dupDb) ∧
    handleSubscribe emptyOracle 1 "morning_brew" dupDb = (Except.ok none, dupDb) :=
  ⟨rfl, rfl, rfl⟩

/-! ## C7 -/

end Omnivore
